import Mathlib

/-!
A shallow embedding of `src/app.py` (the MapToPoster async job service) and
proofs about its orchestration, caching and error-handling behavior.

External effects (the filesystem, the spawned render process, the semaphore
acquire outcome, the before/after newest-file scans) are supplied by explicit
environment records; the Python control flow is translated function by
function.
-/

/-- Result of a `subprocess.run` call: normal completion with an exit code and
captured stdout/stderr, `subprocess.TimeoutExpired`, or any other raised
exception (carrying its message). -/
inductive ProcRes where
  | completed (returncode : Int) (stdout : String) (stderr : String)
  | timedOut
  | raised (msg : String)
deriving DecidableEq

/-- The validated request body (`GenerateRequest` in app.py): city, country,
theme and an integer distance. -/
structure GenerateRequest where
  city : String
  country : String
  theme : String
  distance : Int
deriving DecidableEq

/-- A job record as written by `write_job`: the JSON dict's fields, with the
wall-clock `created_at` timestamp omitted. `cache_key` is optional because
`download` reads it with `data.get("cache_key")`, which may be absent. -/
structure JobRecord where
  job_id : String
  status : String
  cache_key : Option String
  message : String
  result : Option String
deriving DecidableEq

/-- Python `str.isspace` on a single character, covering the whitespace code
points: ASCII 9-13, 28-31, space, NEL, NBSP and the Unicode space separators. -/
def pyIsSpace (c : Char) : Bool :=
  decide ((9 ≤ c.toNat ∧ c.toNat ≤ 13) ∨ (28 ≤ c.toNat ∧ c.toNat ≤ 31) ∨
    c.toNat = 32 ∨ c.toNat = 133 ∨ c.toNat = 160 ∨ c.toNat = 5760 ∨
    (8192 ≤ c.toNat ∧ c.toNat ≤ 8202) ∨ c.toNat = 8232 ∨ c.toNat = 8233 ∨
    c.toNat = 8239 ∨ c.toNat = 8287 ∨ c.toNat = 12288)

/-- Remove leading and trailing whitespace characters from a character list. -/
def stripList (l : List Char) : List Char :=
  ((l.dropWhile pyIsSpace).reverse.dropWhile pyIsSpace).reverse

/-- Python `str.strip()` with no argument. -/
def pyStrip (s : String) : String :=
  String.mk (stripList s.data)

/-- Python slicing `s[:n]`: the first `n` characters. -/
def pySlice (n : Nat) (s : String) : String :=
  String.mk (s.data.take n)

/-- Python `a or b` on strings: `a` unless it is empty (falsy), else `b`. -/
def pyOr (a b : String) : String :=
  if a = "" then b else a

/-- Python `repr` of a list of strings, as interpolated by an f-string
(quote-free theme names, which is what `list_themes` produces). -/
def pyListRepr (l : List String) : String :=
  "[" ++ String.intercalate ", " (l.map (fun t => "'" ++ t ++ "'")) ++ "]"

/-! ## SHA-1 (`hashlib.sha1(...).hexdigest()`), over arbitrary-precision
naturals reduced mod 2^32 where the machine arithmetic wraps. -/

/-- Rotate a 32-bit word left by `n` bits. -/
def rotl (n x : Nat) : Nat :=
  (((x % 4294967296) * 2 ^ n) % 4294967296) + (x % 4294967296) / 2 ^ (32 - n)

/-- Big-endian word from a byte list. -/
def beWord (bs : List Nat) : Nat :=
  bs.foldl (fun acc b => acc * 256 + b) 0

/-- Big-endian byte list of length `n` for a value. -/
def beBytes : Nat → Nat → List Nat
  | 0, _ => []
  | n + 1, v => beBytes n (v / 256) ++ [v % 256]

/-- The 16 initial 32-bit words of a 64-byte chunk. -/
def chunkWords (chunk : List Nat) : List Nat :=
  (List.range 16).map (fun i => beWord ((chunk.drop (4 * i)).take 4))

/-- Extend the word schedule by `n` further words via the SHA-1 recurrence. -/
def sha1extend (acc : List Nat) : Nat → List Nat
  | 0 => acc
  | n + 1 =>
    let i := acc.length
    let v := rotl 1 ((acc.getD (i - 3) 0) ^^^ (acc.getD (i - 8) 0) ^^^
      (acc.getD (i - 14) 0) ^^^ (acc.getD (i - 16) 0))
    sha1extend (acc ++ [v]) n

/-- The SHA-1 round constant for round `t`. -/
def sha1k (t : Nat) : Nat :=
  if t < 20 then 0x5A827999 else if t < 40 then 0x6ED9EBA1
  else if t < 60 then 0x8F1BBCDC else 0xCA62C1D6

/-- The SHA-1 round function for round `t` (bitwise not is xor with all-ones). -/
def sha1f (t b c d : Nat) : Nat :=
  if t < 20 then (b &&& c) ||| ((b ^^^ 0xFFFFFFFF) &&& d)
  else if t < 40 then b ^^^ c ^^^ d
  else if t < 60 then (b &&& c) ||| (b &&& d) ||| (c &&& d)
  else b ^^^ c ^^^ d

/-- The five 32-bit hash registers. -/
structure Sha1State where
  h0 : Nat
  h1 : Nat
  h2 : Nat
  h3 : Nat
  h4 : Nat
deriving DecidableEq

/-- Compress one 64-byte chunk into the running state. -/
def sha1compress (s : Sha1State) (chunk : List Nat) : Sha1State :=
  let w := sha1extend (chunkWords chunk) 64
  let step := fun (st : Nat × Nat × Nat × Nat × Nat) (t : Nat) =>
    let (a, b, c, d, e) := st
    let tmp := (rotl 5 a + sha1f t b c d + e + sha1k t + w.getD t 0) % 4294967296
    (tmp, a, rotl 30 b, c, d)
  let r := (List.range 80).foldl step (s.h0, s.h1, s.h2, s.h3, s.h4)
  { h0 := (s.h0 + r.1) % 4294967296, h1 := (s.h1 + r.2.1) % 4294967296,
    h2 := (s.h2 + r.2.2.1) % 4294967296, h3 := (s.h3 + r.2.2.2.1) % 4294967296,
    h4 := (s.h4 + r.2.2.2.2) % 4294967296 }

/-- Standard SHA-1 padding: 0x80, zeros, then the 64-bit big-endian bit length. -/
def sha1pad (msg : List Nat) : List Nat :=
  msg ++ [0x80] ++ List.replicate ((64 - (msg.length + 9) % 64) % 64) 0 ++
    beBytes 8 (msg.length * 8)

/-- Fold `n` chunks of the padded message into the state. -/
def sha1chunksLoop (s : Sha1State) (bytes : List Nat) : Nat → Sha1State
  | 0 => s
  | n + 1 => sha1chunksLoop (sha1compress s (bytes.take 64)) (bytes.drop 64) n

/-- UTF-8 encoding of one character (`s.encode("utf-8")`, per code point). -/
def utf8Bytes (c : Char) : List Nat :=
  let n := c.toNat
  if n < 128 then [n]
  else if n < 2048 then [192 + n / 64, 128 + n % 64]
  else if n < 65536 then [224 + n / 4096, 128 + (n / 64) % 64, 128 + n % 64]
  else [240 + n / 262144, 128 + (n / 4096) % 64, 128 + (n / 64) % 64, 128 + n % 64]

/-- UTF-8 bytes of a string. -/
def strBytes (s : String) : List Nat :=
  (s.data.map utf8Bytes).flatten

/-- Lowercase hexadecimal digit. -/
def hexDigit (n : Nat) : Char :=
  if n < 10 then Char.ofNat (48 + n) else Char.ofNat (87 + n)

/-- Two lowercase hex digits of a byte. -/
def byteHex (b : Nat) : List Char :=
  [hexDigit (b / 16 % 16), hexDigit (b % 16)]

/-- `sha1(s)` from app.py: `hashlib.sha1(s.encode("utf-8")).hexdigest()`. -/
def sha1 (s : String) : String :=
  let padded := sha1pad (strBytes s)
  let st := sha1chunksLoop
    ⟨0x67452301, 0xEFCDAB89, 0x98BADCFE, 0x10325476, 0xC3D2E1F0⟩
    padded (padded.length / 64)
  String.mk (((beBytes 4 st.h0 ++ beBytes 4 st.h1 ++ beBytes 4 st.h2 ++
    beBytes 4 st.h3 ++ beBytes 4 st.h4).map byteHex).flatten)

/-! ## JSON serialization (`json.dumps(..., sort_keys=True)`) -/

/-- Four lowercase hex digits. -/
def hex4 (n : Nat) : List Char :=
  [hexDigit (n / 4096 % 16), hexDigit (n / 256 % 16), hexDigit (n / 16 % 16),
    hexDigit (n % 16)]

/-- `json.dumps` escaping of one character with the default `ensure_ascii`:
the two-character escapes, `\u00xx` for other control characters, and
`\uxxxx` (with surrogate pairs above the BMP) for non-ASCII. -/
def jsonEscapeChar (c : Char) : List Char :=
  let n := c.toNat
  if c = '"' then ['\\', '"']
  else if c = '\\' then ['\\', '\\']
  else if c = '\n' then ['\\', 'n']
  else if c = '\t' then ['\\', 't']
  else if c = '\r' then ['\\', 'r']
  else if n = 8 then ['\\', 'b']
  else if n = 12 then ['\\', 'f']
  else if n < 32 ∨ 126 < n then
    if n < 65536 then '\\' :: 'u' :: hex4 n
    else
      let v := n - 65536
      ('\\' :: 'u' :: hex4 (55296 + v / 1024)) ++
        ('\\' :: 'u' :: hex4 (56320 + v % 1024))
  else [c]

/-- A JSON string literal. -/
def jsonStr (s : String) : String :=
  String.mk ('"' :: ((s.data.map jsonEscapeChar).flatten ++ ['"']))

/-- `cache_key(city, country, theme, distance)` from app.py: the sha1 hex
digest of the sorted-keys JSON dump of the stripped fields. The sorted key
order is city, country, distance, theme. -/
def cache_key (city country theme : String) (distance : Int) : String :=
  sha1 ("\x7b\"city\": " ++ jsonStr (pyStrip city) ++
    ", \"country\": " ++ jsonStr (pyStrip country) ++
    ", \"distance\": " ++ toString distance ++
    ", \"theme\": " ++ jsonStr (pyStrip theme) ++ "\x7d")

/-- `cache_png_path(key)`: `os.path.flatten(CACHE_DIR, key + ".png")`. -/
def cache_png_path (key : String) : String :=
  "cache/" ++ key ++ ".png"

/-- `job_path(job_id)`: `os.path.flatten(JOBS_DIR, job_id + ".json")`. -/
def job_path (job_id : String) : String :=
  "jobs/" ++ job_id ++ ".json"

/-! ## Job Store (`write_job` / `read_job` over the jobs directory) -/

/-- The jobs directory contents, keyed by job identifier. -/
def JobStore : Type := String → Option JobRecord

/-- `write_job(job_id, data)`: opens `job_path(job_id)` with mode "w" and
dumps the record, so it unconditionally creates-or-overwrites the entry. -/
def write_job (store : JobStore) (job_id : String) (data : JobRecord) : JobStore :=
  fun id => if id = job_id then some data else store id

/-- `read_job(job_id)`: 404 "Job not found" when no record file exists,
otherwise the parsed record. -/
def read_job (store : JobStore) (job_id : String) : Except (Nat × String) JobRecord :=
  match store job_id with
  | none => Except.error (404, "Job not found")
  | some d => Except.ok d

/-! ## The background worker `_run_generate` -/

/-- One execution's view of the world outside the worker: the outcome of the
single `JOB_LOCK.acquire(timeout=1)` call, the filesystem existence check on
the cache path, the `newest_png_in_posters()` snapshots before and after the
invocation, and the results of the (at most two) `subprocess.run` calls. -/
structure WorkerEnv where
  gateAcquireSucceeds : Bool
  fsExists : String → Bool
  before : Option String
  run1 : ProcRes
  run2 : ProcRes
  after : Option String

/-- The record `{status: "RUNNING", message: "Generating..."}`. -/
def runningRec (job_id key : String) : JobRecord :=
  ⟨job_id, "RUNNING", some key, "Generating...", none⟩

/-- The record `{status: "DONE", message: "Served from cache"}` with its
`/download/` result reference (written both by the worker's cache re-check and
by `generate_async`'s fast path; the two dicts in app.py are identical). -/
def cacheHitRec (job_id key : String) : JobRecord :=
  ⟨job_id, "DONE", some key, "Served from cache", some ("/download/" ++ job_id)⟩

/-- The record `{status: "DONE", message: "Done"}` with its result reference. -/
def doneRec (job_id key : String) : JobRecord :=
  ⟨job_id, "DONE", some key, "Done", some ("/download/" ++ job_id)⟩

/-- The record `{status: "PENDING", message: "Queued"}`. -/
def pendingRec (job_id key : String) : JobRecord :=
  ⟨job_id, "PENDING", some key, "Queued", none⟩

/-- An `{status: "ERROR"}` record with the given message. -/
def errorRec (job_id key msg : String) : JobRecord :=
  ⟨job_id, "ERROR", some key, msg, none⟩

/-- The command line built by `_run_generate`:
`["python", "create_map_poster.py", "--city", ..., "--distance", str(int(distance))]`. -/
def mkCmd (req : GenerateRequest) : List String :=
  ["python", "create_map_poster.py",
   "--city", pyStrip req.city,
   "--country", pyStrip req.country,
   "--theme", pyStrip req.theme,
   "--distance", toString req.distance]

/-- What one worker execution did: whether its `acquire` returned True, whether
`release()` was called, the last job record written, the spawned render
commands in order, and the cache key committed by `os.replace` (if any). -/
structure WorkerOutcome where
  acquired : Bool
  released : Bool
  finalJob : JobRecord
  invocations : List (List String)
  cacheWrite : Option String
deriving DecidableEq

/-- The artifact-discovery tail of `_run_generate`: sleep, rescan for the
newest png, fail when nothing new appeared (`not after or after == before`),
else `os.replace(after, cached)` and write DONE. -/
def afterCheck (env : WorkerEnv) (job_id key : String)
    (invs : List (List String)) : JobRecord × List (List String) × Option String :=
  match env.after with
  | none => (errorRec job_id key "Poster not found after generation.", invs, none)
  | some a =>
    if env.before = some a then
      (errorRec job_id key "Poster not found after generation.", invs, none)
    else
      (doneRec job_id key, invs, some key)

/-- The body of `_run_generate`'s try/except: cache re-check, main render,
fallback render at distance 2000, exception handlers for
`subprocess.TimeoutExpired` and the catch-all `Exception`. Returns the final
job record, the invocations, and the committed cache key. -/
def workerBody (env : WorkerEnv) (job_id : String) (req : GenerateRequest)
    (key : String) : JobRecord × List (List String) × Option String :=
  if env.fsExists (cache_png_path key) then
    (cacheHitRec job_id key, [], none)
  else
    let cmd := mkCmd req
    match env.run1 with
    | ProcRes.timedOut => (errorRec job_id key "Generation timed out.", [cmd], none)
    | ProcRes.raised m => (errorRec job_id key ("Unexpected error: " ++ m), [cmd], none)
    | ProcRes.completed rc out err =>
      if rc ≠ 0 then
        if req.distance > 2000 then
          -- cmd_fallback = cmd.copy(); cmd_fallback[-1] = "2000"
          let cmdFallback := cmd.dropLast ++ ["2000"]
          match env.run2 with
          | ProcRes.timedOut =>
            (errorRec job_id key "Generation timed out.", [cmd, cmdFallback], none)
          | ProcRes.raised m =>
            (errorRec job_id key ("Unexpected error: " ++ m), [cmd, cmdFallback], none)
          | ProcRes.completed rc2 out2 err2 =>
            if rc2 ≠ 0 then
              (errorRec job_id key
                (pySlice 2000 (pyStrip (pyOr err2 (pyOr out2 "Generation failed")))),
               [cmd, cmdFallback], none)
            else afterCheck env job_id key [cmd, cmdFallback]
        else
          (errorRec job_id key
            (pySlice 2000 (pyStrip (pyOr err (pyOr out "Generation failed")))),
           [cmd], none)
      else afterCheck env job_id key [cmd]

/-- `_run_generate(job_id, req, key)`: attempt the gate acquire (proceeding
after a 1s sleep even when it times out), run the body, and in the `finally`
block call `JOB_LOCK.release()` unconditionally (a `threading.Semaphore`
release never raises, so the surrounding try/except is inert). -/
def runGenerate (env : WorkerEnv) (job_id : String) (req : GenerateRequest)
    (key : String) : WorkerOutcome :=
  let acquired := env.gateAcquireSucceeds
  let body := workerBody env job_id req key
  { acquired := acquired
    released := true
    finalJob := body.1
    invocations := body.2.1
    cacheWrite := body.2.2 }

/-- Net effect of one worker execution on the semaphore's available-permit
count: minus one for a successful acquire, plus one for each release. -/
def permitDelta (o : WorkerOutcome) : Int :=
  (if o.released then 1 else 0) - (if o.acquired then 1 else 0)

/-! ## The `/generate_async` endpoint -/

/-- The submission-time view of the world: the theme catalog returned by
`list_themes()` and the filesystem existence check. -/
structure SubmitEnv where
  themes : List String
  fsExists : String → Bool

/-- The HTTP-level response of `generate_async`: an `HTTPException` or the
returned `{job_id, status}` payload. -/
inductive SubmitResult where
  | httpError (status : Nat) (detail : String)
  | accepted (job_id : String) (status : String)
deriving DecidableEq

/-- What one call to `generate_async` did: its response, the job record it
wrote (if any), whether a background thread was started, and the cache path
whose existence it queried (if it got that far). -/
structure SubmitOutcome where
  response : SubmitResult
  jobWrite : Option JobRecord
  dispatched : Bool
  keyChecked : Option String
deriving DecidableEq

/-- `generate_async(req)`: validate the theme, compute the cache key, serve
DONE immediately on a cache hit, otherwise write PENDING and start the
worker thread. `job_id` (a random uuid hex in app.py) is a parameter. -/
def generate_async (env : SubmitEnv) (job_id : String) (req : GenerateRequest) :
    SubmitOutcome :=
  if env.themes.contains req.theme then
    let key := cache_key req.city req.country req.theme req.distance
    let cached := cache_png_path key
    if env.fsExists cached then
      { response := SubmitResult.accepted job_id "DONE"
        jobWrite := some (cacheHitRec job_id key)
        dispatched := false
        keyChecked := some cached }
    else
      { response := SubmitResult.accepted job_id "PENDING"
        jobWrite := some (pendingRec job_id key)
        dispatched := true
        keyChecked := some cached }
  else
    { response := SubmitResult.httpError 400
        ("Theme invalid. Available: " ++ pyListRepr env.themes)
      jobWrite := none
      dispatched := false
      keyChecked := none }

/-! ## The `/download/{job_id}` endpoint -/

/-- The response of `download`: an `HTTPException` or a `FileResponse`. -/
inductive DownloadResult where
  | httpError (status : Nat) (detail : String)
  | fileResponse (path : String) (media_type : String) (filename : String)
deriving DecidableEq

/-- `download(job_id)`: read the record (404 if absent), 409 unless DONE,
500 when the record's `cache_key` is missing or falsy, 404 when the cached
file is gone, else the `FileResponse` for the cached png. -/
def download (store : JobStore) (fsExists : String → Bool) (job_id : String) :
    DownloadResult :=
  match read_job store job_id with
  | Except.error e => DownloadResult.httpError e.1 e.2
  | Except.ok data =>
    if data.status ≠ "DONE" then DownloadResult.httpError 409 "Job not completed"
    else
      match data.cache_key with
      | none => DownloadResult.httpError 500 "Missing cache key"
      | some key =>
        if key = "" then DownloadResult.httpError 500 "Missing cache key"
        else
          let path := cache_png_path key
          if fsExists path then
            DownloadResult.fileResponse path "image/png" (job_id ++ ".png")
          else DownloadResult.httpError 404 "Cached file not found"

/-! ## Helper lemmas -/

/-- Dropping a while-satisfied block skips over an all-satisfying segment. -/
theorem dropWhile_all {α : Type} (p : α → Bool) (w l : List α)
    (hw : ∀ c ∈ w, p c = true) : (w ++ l).dropWhile p = l.dropWhile p := by
  induction w with
  | nil => rfl
  | cons a t ih =>
    have ha : p a = true := hw a (List.mem_cons_self a t)
    have ht : ∀ c ∈ t, p c = true := fun c hc => hw c (List.mem_cons_of_mem a hc)
    simp [List.dropWhile_cons, ha, ih ht]

/-- Leading whitespace is invisible to `stripList`. -/
theorem stripList_append_left (w l : List Char)
    (hw : ∀ c ∈ w, pyIsSpace c = true) : stripList (w ++ l) = stripList l := by
  unfold stripList
  rw [dropWhile_all pyIsSpace w l hw]

/-- Trailing whitespace is invisible to `stripList`. -/
theorem stripList_append_right (l w : List Char)
    (hw : ∀ c ∈ w, pyIsSpace c = true) : stripList (l ++ w) = stripList l := by
  unfold stripList
  rw [List.dropWhile_append]
  split
  case isTrue h =>
    have hw' : w.dropWhile pyIsSpace = [] := by
      have := dropWhile_all pyIsSpace w [] hw
      simpa using this
    rw [hw', List.isEmpty_iff.mp h]
  case isFalse h =>
    rw [List.reverse_append,
      dropWhile_all pyIsSpace _ _ (fun c hc => hw c (List.mem_reverse.mp hc))]

/-- `pyStrip` ignores all-whitespace padding on both ends. -/
theorem pyStrip_pad (w1 s w2 : String)
    (h1 : ∀ c ∈ w1.data, pyIsSpace c = true)
    (h2 : ∀ c ∈ w2.data, pyIsSpace c = true) :
    pyStrip (w1 ++ s ++ w2) = pyStrip s := by
  unfold pyStrip
  congr 1
  rw [String.data_append, String.data_append,
    stripList_append_right _ _ h2, stripList_append_left _ _ h1]

/-- A Python slice `s[:n]` has at most `n` characters. -/
theorem pySlice_length_le (n : Nat) (s : String) : (pySlice n s).length ≤ n := by
  have : (pySlice n s).length = (s.data.take n).length := rfl
  rw [this, List.length_take]
  exact min_le_left n s.data.length

/-- When nothing new is discovered (`not after or after == before`),
`afterCheck` reports the poster-not-found error and commits nothing. -/
theorem afterCheck_fail (env : WorkerEnv) (job_id key : String)
    (hafter : env.after = none ∨ env.after = env.before) :
    ∀ invs, afterCheck env job_id key invs =
      (errorRec job_id key "Poster not found after generation.", invs, none) := by
  intro invs
  rcases hafter with h | h
  · simp [afterCheck, h]
  · cases hb : env.before with
    | none => simp [afterCheck, h, hb]
    | some a => simp [afterCheck, h, hb]

/-- `afterCheck` passes the invocation list through unchanged. -/
theorem afterCheck_invs (env : WorkerEnv) (job_id key : String)
    (invs : List (List String)) : (afterCheck env job_id key invs).2.1 = invs := by
  unfold afterCheck
  split
  · rfl
  · split
    · rfl
    · rfl

/-- The record produced by `afterCheck` is either the poster-not-found error
or the DONE record. -/
theorem afterCheck_cases (env : WorkerEnv) (job_id key : String)
    (invs : List (List String)) :
    (afterCheck env job_id key invs).1 =
      errorRec job_id key "Poster not found after generation." ∨
    (afterCheck env job_id key invs).1 = doneRec job_id key := by
  unfold afterCheck
  split
  · left; rfl
  · split
    · left; rfl
    · right; rfl

/-! ## Claim theorems -/

/-- C9: `cache_key` is deterministic (equal inputs give equal fingerprints),
total by construction, and insensitive to adding leading/trailing whitespace
to any of the three string fields. -/
theorem cache_key_pure_and_ws_insensitive :
    (∀ (city country theme : String) (d : Int),
      cache_key city country theme d = cache_key city country theme d) ∧
    (∀ (city country theme : String) (d : Int) (w1 w2 w3 w4 w5 w6 : String),
      (∀ c ∈ w1.data, pyIsSpace c = true) → (∀ c ∈ w2.data, pyIsSpace c = true) →
      (∀ c ∈ w3.data, pyIsSpace c = true) → (∀ c ∈ w4.data, pyIsSpace c = true) →
      (∀ c ∈ w5.data, pyIsSpace c = true) → (∀ c ∈ w6.data, pyIsSpace c = true) →
      cache_key (w1 ++ city ++ w2) (w3 ++ country ++ w4) (w5 ++ theme ++ w6) d =
        cache_key city country theme d) := by
  refine ⟨fun _ _ _ _ => rfl, ?_⟩
  intro city country theme d w1 w2 w3 w4 w5 w6 h1 h2 h3 h4 h5 h6
  unfold cache_key
  rw [pyStrip_pad w1 city w2 h1 h2, pyStrip_pad w3 country w4 h3 h4,
    pyStrip_pad w5 theme w6 h5 h6]

/-- Witness for C9 at concrete padded inputs. -/
theorem cache_key_pure_and_ws_insensitive_witness :
    (∀ c ∈ (" " : String).data, pyIsSpace c = true) ∧
    (∀ c ∈ ("\t\n" : String).data, pyIsSpace c = true) ∧
    cache_key (" " ++ "Paris" ++ "\t\n") ("" ++ "France" ++ " ")
        (" " ++ "noir" ++ "") 2000 =
      cache_key "Paris" "France" "noir" 2000 :=
  ⟨by decide, by decide,
    cache_key_pure_and_ws_insensitive.2 "Paris" "France" "noir" 2000
      " " "\t\n" "" " " " " "" (by decide) (by decide) (by decide) (by decide)
      (by decide) (by decide)⟩

/-- A store holding one finished record under identifier "j1". -/
def storeJ1 : JobStore :=
  fun id => if id = "j1" then
    some ⟨"j1", "DONE", some "k1", "Done", some "/download/j1"⟩ else none

/-- C5 counterexample: `write_job` on the already-taken identifier "j1" does
not fail and does not leave the existing record unchanged — it silently
replaces it. -/
theorem write_job_taken_id_overwritten :
    storeJ1 "j1" = some ⟨"j1", "DONE", some "k1", "Done", some "/download/j1"⟩ ∧
    write_job storeJ1 "j1" ⟨"j1", "PENDING", some "k2", "Queued", none⟩ "j1" =
      some ⟨"j1", "PENDING", some "k2", "Queued", none⟩ ∧
    (⟨"j1", "PENDING", some "k2", "Queued", none⟩ : JobRecord) ≠
      ⟨"j1", "DONE", some "k1", "Done", some "/download/j1"⟩ := by
  refine ⟨rfl, ?_, by decide⟩
  simp [write_job, storeJ1]

/-- C5 (amended): `write_job(id, record)` has no `AlreadyExists` failure mode;
it unconditionally creates-or-overwrites the entry for `id` and leaves every
other identifier's entry unchanged. -/
theorem write_job_create_or_overwrite (store : JobStore) (job_id : String)
    (data : JobRecord) :
    write_job store job_id data job_id = some data ∧
    ∀ id, id ≠ job_id → write_job store job_id data id = store id := by
  refine ⟨by simp [write_job], fun id h => by simp [write_job, h]⟩

/-- Witness for the amended C5 at a concrete store, identifier and record. -/
theorem write_job_create_or_overwrite_witness :
    write_job storeJ1 "j1" ⟨"j1", "PENDING", some "k2", "Queued", none⟩ "j1" =
      some ⟨"j1", "PENDING", some "k2", "Queued", none⟩ ∧
    (("j2" : String) ≠ "j1" ∧
      write_job storeJ1 "j1" ⟨"j1", "PENDING", some "k2", "Queued", none⟩ "j2" =
        storeJ1 "j2") :=
  ⟨(write_job_create_or_overwrite storeJ1 "j1" _).1,
    by decide,
    (write_job_create_or_overwrite storeJ1 "j1" _).2 "j2" (by decide)⟩

/-- C7: an unknown theme is rejected with a 400 `HTTPException` listing the
valid themes; no job record is written, no worker is dispatched, and no cache
key is computed or looked up. -/
theorem unknown_theme_rejected (env : SubmitEnv) (job_id : String)
    (req : GenerateRequest) (h : env.themes.contains req.theme = false) :
    generate_async env job_id req =
      { response := SubmitResult.httpError 400
          ("Theme invalid. Available: " ++ pyListRepr env.themes)
        jobWrite := none
        dispatched := false
        keyChecked := none } := by
  have h' : req.theme ∉ env.themes := by simpa using h
  simp [generate_async, h']

/-- A submission environment with a two-theme catalog and an empty cache. -/
def envTwoThemes : SubmitEnv :=
  { themes := ["noir", "light"], fsExists := fun _ => false }

/-- Witness for C7: the theme "doesnotexist" is rejected. -/
theorem unknown_theme_rejected_witness :
    envTwoThemes.themes.contains "doesnotexist" = false ∧
    generate_async envTwoThemes "j1" ⟨"Paris", "France", "doesnotexist", 2000⟩ =
      { response := SubmitResult.httpError 400
          ("Theme invalid. Available: " ++ pyListRepr envTwoThemes.themes)
        jobWrite := none
        dispatched := false
        keyChecked := none } :=
  ⟨by decide,
    unknown_theme_rejected envTwoThemes "j1"
      ⟨"Paris", "France", "doesnotexist", 2000⟩ (by decide)⟩

/-- A worker environment in which the gate acquire times out, the cache has no
entry, and the render then runs successfully and produces a new poster. -/
def envGateTimeout : WorkerEnv :=
  { gateAcquireSucceeds := false
    fsExists := fun _ => false
    before := none
    run1 := ProcRes.completed 0 "" ""
    run2 := ProcRes.completed 0 "" ""
    after := some "posters/out.png" }

/-- C1: evaluation of `_run_generate` on an execution whose gate acquire times
out. The worker nevertheless proceeds to spawn the render process and its
`finally` block still calls `release()`, so the net permit delta is +1 rather
than the 0 the gate discipline demands. -/
theorem gate_timeout_still_renders_and_releases :
    (runGenerate envGateTimeout "j1" ⟨"Paris", "France", "noir", 2000⟩ "k").acquired
      = false ∧
    (runGenerate envGateTimeout "j1" ⟨"Paris", "France", "noir", 2000⟩ "k").released
      = true ∧
    (runGenerate envGateTimeout "j1" ⟨"Paris", "France", "noir", 2000⟩ "k").invocations
      ≠ [] ∧
    permitDelta (runGenerate envGateTimeout "j1" ⟨"Paris", "France", "noir", 2000⟩ "k")
      = 1 := by
  refine ⟨rfl, rfl, ?_, rfl⟩
  decide

/-- The fallback command (`cmd_fallback[-1] = "2000"`) is the command that
would have been built for the same request with distance 2000. -/
theorem fallbackCmd_eq (req : GenerateRequest) :
    (mkCmd req).dropLast ++ ["2000"] = mkCmd { req with distance := 2000 } := rfl

/-- C3: the two cache fast paths. (i) A submission whose fingerprint already
has a cache entry gets a DONE job record immediately, with no worker thread
dispatched. (ii) A worker that acquired the gate and then finds the cache
entry present writes the DONE "Served from cache" record and stops: no render
invocation, no cache write. -/
theorem cache_hit_fast_paths :
    (∀ (env : SubmitEnv) (job_id : String) (req : GenerateRequest),
      env.themes.contains req.theme = true →
      env.fsExists (cache_png_path
        (cache_key req.city req.country req.theme req.distance)) = true →
      generate_async env job_id req =
        { response := SubmitResult.accepted job_id "DONE"
          jobWrite := some (cacheHitRec job_id
            (cache_key req.city req.country req.theme req.distance))
          dispatched := false
          keyChecked := some (cache_png_path
            (cache_key req.city req.country req.theme req.distance)) }) ∧
    (∀ (env : WorkerEnv) (job_id : String) (req : GenerateRequest) (key : String),
      env.gateAcquireSucceeds = true →
      env.fsExists (cache_png_path key) = true →
      runGenerate env job_id req key =
        { acquired := true
          released := true
          finalJob := cacheHitRec job_id key
          invocations := []
          cacheWrite := none }) := by
  constructor
  · intro env job_id req ht hc
    have ht' : req.theme ∈ env.themes := by simpa using ht
    simp [generate_async, ht', hc]
  · intro env job_id req key hg hc
    simp [runGenerate, workerBody, hc, hg]

/-- A submission environment whose cache has every entry. -/
def envCachedSubmit : SubmitEnv :=
  { themes := ["noir"], fsExists := fun _ => true }

/-- A worker environment with a successful acquire and a cache hit. -/
def envCachedWorker : WorkerEnv :=
  { gateAcquireSucceeds := true
    fsExists := fun _ => true
    before := none
    run1 := ProcRes.completed 0 "" ""
    run2 := ProcRes.completed 0 "" ""
    after := none }

/-- Witness for C3 at concrete environments. -/
theorem cache_hit_fast_paths_witness :
    envCachedSubmit.themes.contains "noir" = true ∧
    envCachedWorker.gateAcquireSucceeds = true ∧
    generate_async envCachedSubmit "j1" ⟨"Paris", "France", "noir", 2000⟩ =
      { response := SubmitResult.accepted "j1" "DONE"
        jobWrite := some (cacheHitRec "j1" (cache_key "Paris" "France" "noir" 2000))
        dispatched := false
        keyChecked := some (cache_png_path (cache_key "Paris" "France" "noir" 2000)) } ∧
    runGenerate envCachedWorker "j2" ⟨"Paris", "France", "noir", 2000⟩ "kk" =
      { acquired := true
        released := true
        finalJob := cacheHitRec "j2" "kk"
        invocations := []
        cacheWrite := none } :=
  ⟨by decide, rfl,
    cache_hit_fast_paths.1 envCachedSubmit "j1"
      ⟨"Paris", "France", "noir", 2000⟩ (by decide) rfl,
    cache_hit_fast_paths.2 envCachedWorker "j2"
      ⟨"Paris", "France", "noir", 2000⟩ "kk" rfl rfl⟩

/-- C4: when the worker reaches the render stage (cache miss) and the process
reports success — directly, or via the fallback after a failed first attempt —
but the post-settle rescan finds no poster or only the pre-invocation one, the
job ends ERROR with the poster-not-found message and nothing is committed to
the cache. -/
theorem artifact_not_produced_detection (env : WorkerEnv) (job_id key : String)
    (req : GenerateRequest)
    (hc : env.fsExists (cache_png_path key) = false)
    (hsucc : (∃ out err, env.run1 = ProcRes.completed 0 out err) ∨
      (∃ rc out err, env.run1 = ProcRes.completed rc out err ∧ rc ≠ 0 ∧
        2000 < req.distance ∧
        ∃ out2 err2, env.run2 = ProcRes.completed 0 out2 err2))
    (hafter : env.after = none ∨ env.after = env.before) :
    (runGenerate env job_id req key).finalJob =
      errorRec job_id key "Poster not found after generation." ∧
    (runGenerate env job_id req key).cacheWrite = none := by
  have hfj : (runGenerate env job_id req key).finalJob =
    (workerBody env job_id req key).1 := rfl
  have hcw : (runGenerate env job_id req key).cacheWrite =
    (workerBody env job_id req key).2.2 := rfl
  rw [hfj, hcw]
  rcases hsucc with ⟨out, err, h1⟩ | ⟨rc, out, err, h1, hrc, hd, out2, err2, h2⟩
  · constructor <;>
      simp [workerBody, hc, h1, afterCheck_fail env job_id key hafter]
  · constructor <;>
      simp [workerBody, hc, h1, hrc, hd, h2,
        afterCheck_fail env job_id key hafter]

/-- A worker environment where the render exits 0 but writes nothing. -/
def envNoArtifact : WorkerEnv :=
  { gateAcquireSucceeds := true
    fsExists := fun _ => false
    before := none
    run1 := ProcRes.completed 0 "ok" ""
    run2 := ProcRes.completed 0 "" ""
    after := none }

/-- Witness for C4 at a concrete environment. -/
theorem artifact_not_produced_detection_witness :
    envNoArtifact.run1 = ProcRes.completed 0 "ok" "" ∧
    envNoArtifact.after = none ∧
    (runGenerate envNoArtifact "j1" ⟨"Paris", "France", "noir", 2000⟩ "k").finalJob =
      errorRec "j1" "k" "Poster not found after generation." ∧
    (runGenerate envNoArtifact "j1" ⟨"Paris", "France", "noir", 2000⟩ "k").cacheWrite =
      none := by
  have h := artifact_not_produced_detection envNoArtifact "j1" "k"
    ⟨"Paris", "France", "noir", 2000⟩ rfl (Or.inl ⟨"ok", "", rfl⟩) (Or.inl rfl)
  exact ⟨rfl, rfl, h.1, h.2⟩

/-- C2: on a cache miss whose first render invocation completes with a
non-zero exit code: if the requested distance exceeds 2000, exactly one
retry is made, with the command's distance argument set to 2000; the job ends
DONE when that retry exits 0 and a new poster is discovered, and ends ERROR
carrying the retry's truncated diagnostics (with no cache commit) when the
retry also exits non-zero. If the requested distance is at or below 2000, no
fallback is attempted: the single invocation's truncated diagnostics are
recorded as ERROR and nothing is committed. -/
theorem fallback_policy (env : WorkerEnv) (job_id key : String)
    (req : GenerateRequest) (rc : Int) (out err : String)
    (hc : env.fsExists (cache_png_path key) = false)
    (h1 : env.run1 = ProcRes.completed rc out err) (hrc : rc ≠ 0) :
    (2000 < req.distance →
      (runGenerate env job_id req key).invocations =
        [mkCmd req, mkCmd { req with distance := 2000 }] ∧
      (∀ out2 err2, env.run2 = ProcRes.completed 0 out2 err2 →
        ∀ a, env.after = some a → env.before ≠ some a →
        (runGenerate env job_id req key).finalJob = doneRec job_id key) ∧
      (∀ rc2 out2 err2, env.run2 = ProcRes.completed rc2 out2 err2 → rc2 ≠ 0 →
        (runGenerate env job_id req key).finalJob =
          errorRec job_id key
            (pySlice 2000 (pyStrip (pyOr err2 (pyOr out2 "Generation failed")))) ∧
        (runGenerate env job_id req key).cacheWrite = none)) ∧
    (req.distance ≤ 2000 →
      (runGenerate env job_id req key).invocations = [mkCmd req] ∧
      (runGenerate env job_id req key).finalJob =
        errorRec job_id key
          (pySlice 2000 (pyStrip (pyOr err (pyOr out "Generation failed")))) ∧
      (runGenerate env job_id req key).cacheWrite = none) := by
  have hinv : (runGenerate env job_id req key).invocations =
    (workerBody env job_id req key).2.1 := rfl
  have hfj : (runGenerate env job_id req key).finalJob =
    (workerBody env job_id req key).1 := rfl
  have hcw : (runGenerate env job_id req key).cacheWrite =
    (workerBody env job_id req key).2.2 := rfl
  constructor
  · intro hd
    refine ⟨?_, ?_, ?_⟩
    · rw [hinv]
      rcases hr2 : env.run2 with ⟨rc2, out2, err2⟩ | _ | m
      · by_cases hrc2 : rc2 = 0 <;>
          simp [workerBody, hc, h1, hrc, hd, hr2, hrc2, afterCheck_invs,
            fallbackCmd_eq]
      · simp [workerBody, hc, h1, hrc, hd, hr2, fallbackCmd_eq]
      · simp [workerBody, hc, h1, hrc, hd, hr2, fallbackCmd_eq]
    · intro out2 err2 h2 a ha hb
      rw [hfj]
      simp [workerBody, hc, h1, hrc, hd, h2, afterCheck, ha, hb]
    · intro rc2 out2 err2 h2 hrc2
      constructor
      · rw [hfj]
        simp [workerBody, hc, h1, hrc, hd, h2, hrc2]
      · rw [hcw]
        simp [workerBody, hc, h1, hrc, hd, h2, hrc2]
  · intro hle
    have hd' : ¬ (2000 : Int) < req.distance := not_lt.mpr hle
    refine ⟨?_, ?_, ?_⟩
    · rw [hinv]
      simp [workerBody, hc, h1, hrc, hd']
    · rw [hfj]
      simp [workerBody, hc, h1, hrc, hd']
    · rw [hcw]
      simp [workerBody, hc, h1, hrc, hd']

/-- A worker environment failing at the requested distance and succeeding at
the fallback distance, with a fresh poster discovered afterwards. -/
def envFallback : WorkerEnv :=
  { gateAcquireSucceeds := true
    fsExists := fun _ => false
    before := none
    run1 := ProcRes.completed 1 "" "boom"
    run2 := ProcRes.completed 0 "" ""
    after := some "posters/p.png" }

/-- Witness for C2: with distance 4000, a failure at 4000 and a success at
2000, exactly the two commands run and the job ends DONE. -/
theorem fallback_policy_witness :
    (1 : Int) ≠ 0 ∧ (2000 : Int) < 4000 ∧
    (runGenerate envFallback "j1" ⟨"Paris", "France", "noir", 4000⟩ "k").invocations =
      [mkCmd ⟨"Paris", "France", "noir", 4000⟩,
        mkCmd ⟨"Paris", "France", "noir", 2000⟩] ∧
    (runGenerate envFallback "j1" ⟨"Paris", "France", "noir", 4000⟩ "k").finalJob =
      doneRec "j1" "k" := by
  have h := fallback_policy envFallback "j1" "k" ⟨"Paris", "France", "noir", 4000⟩
    1 "" "boom" rfl rfl (by decide)
  exact ⟨by decide, by decide, (h.1 (by decide)).1,
    (h.1 (by decide)).2.1 "" "" rfl "posters/p.png" rfl (by decide)⟩

/-- Enumeration of every record `_run_generate` can leave as the final job
state: the two DONE records, the two fixed ERROR messages, a truncated
render-diagnostics ERROR, or the catch-all "Unexpected error: " ERROR. -/
theorem workerBody_final_cases (env : WorkerEnv) (job_id : String)
    (req : GenerateRequest) (key : String) :
    (workerBody env job_id req key).1 = cacheHitRec job_id key ∨
    (workerBody env job_id req key).1 = doneRec job_id key ∨
    (workerBody env job_id req key).1 =
      errorRec job_id key "Generation timed out." ∨
    (workerBody env job_id req key).1 =
      errorRec job_id key "Poster not found after generation." ∨
    (∃ s, (workerBody env job_id req key).1 =
      errorRec job_id key (pySlice 2000 s)) ∨
    (∃ m, (workerBody env job_id req key).1 =
      errorRec job_id key ("Unexpected error: " ++ m)) := by
  unfold workerBody
  split
  · exact Or.inl rfl
  split
  · exact Or.inr (Or.inr (Or.inl rfl))
  · rename_i m heq
    exact Or.inr (Or.inr (Or.inr (Or.inr (Or.inr ⟨m, rfl⟩))))
  · rename_i rc out err heq
    split
    · split
      · split
        · exact Or.inr (Or.inr (Or.inl rfl))
        · rename_i m heq2
          exact Or.inr (Or.inr (Or.inr (Or.inr (Or.inr ⟨m, rfl⟩))))
        · rename_i rc2 out2 err2 heq2
          split
          · exact Or.inr (Or.inr (Or.inr (Or.inr (Or.inl
              ⟨pyStrip (pyOr err2 (pyOr out2 "Generation failed")), rfl⟩))))
          · rcases afterCheck_cases env job_id key _ with h | h
            · rw [h]
              exact Or.inr (Or.inr (Or.inr (Or.inl rfl)))
            · rw [h]
              exact Or.inr (Or.inl rfl)
      · exact Or.inr (Or.inr (Or.inr (Or.inr (Or.inl
          ⟨pyStrip (pyOr err (pyOr out "Generation failed")), rfl⟩))))
    · rcases afterCheck_cases env job_id key _ with h | h
      · rw [h]
        exact Or.inr (Or.inr (Or.inr (Or.inl rfl)))
      · rw [h]
        exact Or.inr (Or.inl rfl)

/-- C6 (amended): every worker execution ends with a terminal DONE or ERROR
record — no failure escapes the worker — and every ERROR message is either at
most 2000 characters (the render diagnostics are truncated, the timeout and
poster-not-found messages are short constants) or is the catch-all
"Unexpected error: " message, which carries the exception text untruncated. -/
theorem worker_failures_recorded (env : WorkerEnv) (job_id : String)
    (req : GenerateRequest) (key : String) :
    (runGenerate env job_id req key).finalJob.status = "DONE" ∨
    ((runGenerate env job_id req key).finalJob.status = "ERROR" ∧
      ((runGenerate env job_id req key).finalJob.message.length ≤ 2000 ∨
        ∃ e, (runGenerate env job_id req key).finalJob.message =
          "Unexpected error: " ++ e)) := by
  have hfj : (runGenerate env job_id req key).finalJob =
    (workerBody env job_id req key).1 := rfl
  rw [hfj]
  rcases workerBody_final_cases env job_id req key with
    h | h | h | h | ⟨s, h⟩ | ⟨m, h⟩
  · left; rw [h]; rfl
  · left; rw [h]; rfl
  · right
    refine ⟨by rw [h]; rfl, Or.inl ?_⟩
    rw [h]
    show ("Generation timed out." : String).length ≤ 2000
    decide
  · right
    refine ⟨by rw [h]; rfl, Or.inl ?_⟩
    rw [h]
    show ("Poster not found after generation." : String).length ≤ 2000
    decide
  · right
    refine ⟨by rw [h]; rfl, Or.inl ?_⟩
    rw [h]
    exact pySlice_length_le 2000 s
  · right
    exact ⟨by rw [h]; rfl, Or.inr ⟨m, by rw [h]; rfl⟩⟩

/-- A 2000-character exception message. -/
def longBoom : String := String.mk (List.replicate 2000 'x')

/-- A worker environment whose render invocation raises an exception with a
2000-character message. -/
def envLongRaise : WorkerEnv :=
  { gateAcquireSucceeds := true
    fsExists := fun _ => false
    before := none
    run1 := ProcRes.raised longBoom
    run2 := ProcRes.completed 0 "" ""
    after := none }

/-- C6 counterexample: the catch-all handler stores
`f"Unexpected error: {str(e)}"` without truncation, so a 2000-character
exception text yields an ERROR record whose message has 2018 characters,
exceeding the claimed 2000-character bound. -/
theorem unexpected_error_message_untruncated :
    (runGenerate envLongRaise "j1" ⟨"Paris", "France", "noir", 2000⟩
      "k").finalJob.status = "ERROR" ∧
    2000 < (runGenerate envLongRaise "j1" ⟨"Paris", "France", "noir", 2000⟩
      "k").finalJob.message.length := by
  have hm : (runGenerate envLongRaise "j1" ⟨"Paris", "France", "noir", 2000⟩
      "k").finalJob.message = "Unexpected error: " ++ longBoom := rfl
  constructor
  · rfl
  · rw [hm, String.length_append]
    have hlb : longBoom.length = 2000 := by
      show (List.replicate 2000 'x').length = 2000
      exact List.length_replicate 2000 'x'
    rw [hlb]
    decide

/-- C8: `download` fails 404 "Job not found" when no record exists, 409 when
the record's status is not DONE, 500 "Missing cache key" when a DONE record
lacks a (truthy) cache key, 404 "Cached file not found" when the referenced
artifact is absent, and otherwise serves the cached png for the record's
fingerprint. -/
theorem download_gating (store : JobStore) (fsE : String → Bool)
    (job_id : String) :
    (store job_id = none →
      download store fsE job_id = DownloadResult.httpError 404 "Job not found") ∧
    (∀ data, store job_id = some data → data.status ≠ "DONE" →
      download store fsE job_id =
        DownloadResult.httpError 409 "Job not completed") ∧
    (∀ data, store job_id = some data → data.status = "DONE" →
      (data.cache_key = none ∨ data.cache_key = some "") →
      download store fsE job_id =
        DownloadResult.httpError 500 "Missing cache key") ∧
    (∀ data k, store job_id = some data → data.status = "DONE" →
      data.cache_key = some k → k ≠ "" → fsE (cache_png_path k) = false →
      download store fsE job_id =
        DownloadResult.httpError 404 "Cached file not found") ∧
    (∀ data k, store job_id = some data → data.status = "DONE" →
      data.cache_key = some k → k ≠ "" → fsE (cache_png_path k) = true →
      download store fsE job_id =
        DownloadResult.fileResponse (cache_png_path k) "image/png"
          (job_id ++ ".png")) := by
  refine ⟨?_, ?_, ?_, ?_, ?_⟩
  · intro h
    simp [download, read_job, h]
  · intro data h hs
    simp [download, read_job, h, hs]
  · intro data h hs hk
    rcases hk with hk | hk <;> simp [download, read_job, h, hs, hk]
  · intro data k h hs hk hne hf
    simp [download, read_job, h, hs, hk, hne, hf]
  · intro data k h hs hk hne hf
    simp [download, read_job, h, hs, hk, hne, hf]

/-- A store holding a single DONE record under identifier "jd". -/
def storeDone : JobStore :=
  fun id => if id = "jd" then
    some ⟨"jd", "DONE", some "kd", "Done", some "/download/jd"⟩ else none

/-- Witness for C8 on the success branch at a concrete store. -/
theorem download_gating_witness :
    storeDone "jd" = some ⟨"jd", "DONE", some "kd", "Done", some "/download/jd"⟩ ∧
    ("kd" : String) ≠ "" ∧
    download storeDone (fun _ => true) "jd" =
      DownloadResult.fileResponse (cache_png_path "kd") "image/png"
        ("jd" ++ ".png") :=
  ⟨rfl, by decide,
    (download_gating storeDone (fun _ => true) "jd").2.2.2.2
      ⟨"jd", "DONE", some "kd", "Done", some "/download/jd"⟩ "kd"
      rfl rfl rfl (by decide) rfl⟩

/-- C10: when a job's first render at a distance above 2000 fails but the
fallback at 2000 succeeds and a fresh poster is discovered, the worker
commits that degraded artifact under the cache key of the original request
(computed from the original distance, not 2000) and ends DONE; consequently
any later submission of the same request, once that cache entry exists, is
answered DONE immediately with no new worker dispatched. -/
theorem fallback_artifact_cached_under_original_key (env : WorkerEnv)
    (job_id : String) (req : GenerateRequest) (rc : Int)
    (out err out2 err2 a : String)
    (hd : 2000 < req.distance)
    (hc : env.fsExists (cache_png_path
      (cache_key req.city req.country req.theme req.distance)) = false)
    (h1 : env.run1 = ProcRes.completed rc out err) (hrc : rc ≠ 0)
    (h2 : env.run2 = ProcRes.completed 0 out2 err2)
    (ha : env.after = some a)
    (hb : env.before ≠ some a) :
    (runGenerate env job_id req
        (cache_key req.city req.country req.theme req.distance)).cacheWrite =
      some (cache_key req.city req.country req.theme req.distance) ∧
    (runGenerate env job_id req
        (cache_key req.city req.country req.theme req.distance)).finalJob =
      doneRec job_id (cache_key req.city req.country req.theme req.distance) ∧
    (∀ (env2 : SubmitEnv) (job_id2 : String),
      env2.themes.contains req.theme = true →
      env2.fsExists (cache_png_path
        (cache_key req.city req.country req.theme req.distance)) = true →
      (generate_async env2 job_id2 req).response =
        SubmitResult.accepted job_id2 "DONE" ∧
      (generate_async env2 job_id2 req).dispatched = false) := by
  refine ⟨?_, ?_, ?_⟩
  · have hcw : (runGenerate env job_id req
        (cache_key req.city req.country req.theme req.distance)).cacheWrite =
      (workerBody env job_id req
        (cache_key req.city req.country req.theme req.distance)).2.2 := rfl
    rw [hcw]
    simp [workerBody, hc, h1, hrc, hd, h2, afterCheck, ha, hb]
  · have hfj : (runGenerate env job_id req
        (cache_key req.city req.country req.theme req.distance)).finalJob =
      (workerBody env job_id req
        (cache_key req.city req.country req.theme req.distance)).1 := rfl
    rw [hfj]
    simp [workerBody, hc, h1, hrc, hd, h2, afterCheck, ha, hb]
  · intro env2 job_id2 ht hfs
    have ht' : req.theme ∈ env2.themes := by simpa using ht
    constructor <;> simp [generate_async, ht', hfs]

/-- Witness for C10: a distance-4000 request whose render fails at 4000 and
succeeds at 2000 commits under the original request's key, and a later
identical submission against a cache holding that key is served DONE. -/
theorem fallback_artifact_cached_under_original_key_witness :
    (2000 : Int) < 4000 ∧ (1 : Int) ≠ 0 ∧
    (runGenerate envFallback "j1" ⟨"Paris", "France", "noir", 4000⟩
        (cache_key "Paris" "France" "noir" 4000)).cacheWrite =
      some (cache_key "Paris" "France" "noir" 4000) ∧
    (generate_async envCachedSubmit "j2" ⟨"Paris", "France", "noir", 4000⟩).response =
      SubmitResult.accepted "j2" "DONE" := by
  have h := fallback_artifact_cached_under_original_key envFallback "j1"
    ⟨"Paris", "France", "noir", 4000⟩ 1 "" "boom" "" "" "posters/p.png"
    (by decide) rfl rfl (by decide) rfl rfl (by decide)
  exact ⟨by decide, by decide, h.1,
    (h.2.2 envCachedSubmit "j2" (by decide) rfl).1⟩
